import Mathlib

/-!
Verification of the microwave DAQ testing system's analysis engine.

The definitions below are a shallow embedding of the Python source:
`config.py` (constants), `daq_handler.py` (class `DAQHandler`),
`state_machine.py` (class `MicrowaveStateMachine`) and the door-status
branch of `update_display` in `main.py`.  Voltages, timestamps and
durations are modelled as exact rationals (`ℚ`); Python `None` becomes
`Option`; a Python run-time exception becomes `Except.error`.
-/

namespace Microwave

/-! ### Configuration constants, from `config.py` -/

def ON_THRESHOLD : ℚ := 4.6

def OUT_OF_RANGE_HIGH : ℚ := 5.5

def OUT_OF_RANGE_LOW : ℚ := -0.5

def DOOR_CLOSED_THRESHOLD : ℚ := 0.5

def POWER_CALC_WINDOW : ℕ := 100

def OVERLAP_TOLERANCE : ℚ := 2

def PASS_FAIL_TOLERANCE : ℚ := 5

def DEFROST_WEIGHT_MIN : ℕ := 100

def DEFROST_WEIGHT_MAX : ℕ := 2000

def DEFROST_WEIGHT_STEP : ℚ := 100

def DEFROST_CONSTANT_FACTOR : ℚ := 2.05

/-- One entry of `config.DEFROST_CONFIG['sectors']`. -/
structure SectorConfig where
  name : String
  percentage : ℚ
  power : ℚ
  on_time : ℚ
  off_time : ℚ
  period : ℚ
  deriving Repr, DecidableEq

def DEFROST_SECTORS : List SectorConfig :=
  [ ⟨"Sector 1", 0.14, 36.7, 11, 19, 30⟩,
    ⟨"Sector 2", 0.50, 23.3, 7, 23, 30⟩,
    ⟨"Sector 3", 0.36, 30.0, 9, 21, 30⟩ ]

/-! ### Data model -/

/-- The five channels of `config.CHANNELS`. -/
inductive Channel where
  | doorSW | lamp | microwave | grill | buzzer
  deriving Repr, DecidableEq

/-- One voltage reading per channel (the list returned by `task.read()`). -/
structure Voltages where
  door : ℚ
  lamp : ℚ
  mw : ℚ
  grill : ℚ
  buzzer : ℚ
  deriving Repr, DecidableEq

/-- Expected power for a channel: either the `'variable'` sentinel string
or a numeric percentage.  A field of Python type
`None | 'variable' | number` is modelled as `Option Expect`. -/
inductive Expect where
  | var
  | val (x : ℚ)
  deriving Repr, DecidableEq

/-- A warning emitted by `_check_warnings`, with the data the formatted
string carries. -/
inductive Warning where
  | outOfRange (c : Channel) (v : ℚ)
  | doorOpened
  | overlap (duration : ℚ)
  deriving Repr, DecidableEq

/-- The state of a `DAQHandler` instance (`__init__`), without the vendor
`task` object.  The per-channel deques `data_buffers` become five lists
(newest sample last) and `timestamps` a list of rationals. -/
structure DAQState where
  is_connected : Bool
  is_recording : Bool
  doorBuf : List ℚ
  lampBuf : List ℚ
  mwBuf : List ℚ
  grillBuf : List ℚ
  buzzerBuf : List ℚ
  timestamps : List ℚ
  start_time : Option ℚ
  sample_count : ℕ
  door_open_count : ℕ
  last_door_state : Bool
  overlap_start_time : Option ℚ
  overlap_duration : ℚ
  defrost_mode : Bool
  defrost_weight : ℚ
  expected_mw_power : Option Expect
  expected_grill_power : Option Expect
  deriving Repr, DecidableEq

/-- The fresh state built by `DAQHandler.__init__`. -/
def initState : DAQState :=
  { is_connected := false
    is_recording := false
    doorBuf := [], lampBuf := [], mwBuf := [], grillBuf := [], buzzerBuf := []
    timestamps := []
    start_time := none
    sample_count := 0
    door_open_count := 0
    last_door_state := false
    overlap_start_time := none
    overlap_duration := 0
    defrost_mode := false
    defrost_weight := 0
    expected_mw_power := none
    expected_grill_power := none }

/-! ### `start_recording` (daq_handler.py lines 77-92) -/

/-- `DAQHandler.start_recording`, with `datetime.now()` passed in as `now`.
Returns the new state together with the `(bool, message)` pair the Python
method returns. -/
def startRecording (s : DAQState) (now : ℚ) : DAQState × Bool × String :=
  if s.is_connected = false then
    (s, false, "DAQ not connected")
  else
    ({ s with
        is_recording := true
        start_time := some now
        sample_count := 0
        door_open_count := 0
        doorBuf := [], lampBuf := [], mwBuf := [], grillBuf := [], buzzerBuf := []
        timestamps := [] },
     true, "Recording Started")

/-! ### `_calculate_powers` (daq_handler.py lines 181-207) -/

/-- The four power figures that `_calculate_powers` returns. -/
structure PowersR where
  mw : ℚ
  mw_samples : ℕ
  grill : ℚ
  grill_samples : ℕ
  deriving Repr, DecidableEq

/-- The window `_calculate_powers` takes of a channel buffer:
`buffer[-POWER_CALC_WINDOW:]` when the buffer is long enough, the whole
buffer otherwise. -/
def liveWindow (buffer : List ℚ) : List ℚ :=
  if buffer.length ≥ POWER_CALC_WINDOW then
    buffer.drop (buffer.length - POWER_CALC_WINDOW)
  else buffer

/-- `DAQHandler._calculate_powers`: for each of Microwave and Grill, the
window is the last `POWER_CALC_WINDOW` buffer entries (the whole buffer
when shorter), and power is `(on_count / len(window)) * 100`. -/
def calculatePowers (s : DAQState) : PowersR :=
  { mw :=
      if s.mwBuf.length > 0 then
        if (liveWindow s.mwBuf).length > 0 then
          (((liveWindow s.mwBuf).countP (fun v => decide (ON_THRESHOLD ≤ v)) : ℚ) /
            ((liveWindow s.mwBuf).length : ℚ)) * 100
        else 0
      else 0
    mw_samples :=
      if s.mwBuf.length > 0 then (liveWindow s.mwBuf).length else 0
    grill :=
      if s.grillBuf.length > 0 then
        if (liveWindow s.grillBuf).length > 0 then
          (((liveWindow s.grillBuf).countP (fun v => decide (ON_THRESHOLD ≤ v)) : ℚ) /
            ((liveWindow s.grillBuf).length : ℚ)) * 100
        else 0
      else 0
    grill_samples :=
      if s.grillBuf.length > 0 then (liveWindow s.grillBuf).length else 0 }

/-! ### Door status classification (main.py lines 1191-1200) -/

/-- The `Door SW` branch of `update_display`: the status text set for the
door channel.  `"ON"` is the door's CLOSED-equivalent, `"OFF"` its
OPEN-equivalent (reversed polarity). -/
def doorStatus (voltage : ℚ) : String :=
  if 0 ≤ voltage ∧ voltage < 0.5 then "ON"
  else if 4.5 ≤ voltage ∧ voltage ≤ 5.0 then "OFF"
  else "Unknown"

/-! ### `_check_warnings` (daq_handler.py lines 140-179) -/

/-- The out-of-range pass of `_check_warnings`, over the channels in
`config.CHANNELS` order. -/
def rangeWarnings (v : Voltages) : List Warning :=
  (if v.door > OUT_OF_RANGE_HIGH ∨ v.door < OUT_OF_RANGE_LOW then
    [Warning.outOfRange Channel.doorSW v.door] else []) ++
  (if v.lamp > OUT_OF_RANGE_HIGH ∨ v.lamp < OUT_OF_RANGE_LOW then
    [Warning.outOfRange Channel.lamp v.lamp] else []) ++
  (if v.mw > OUT_OF_RANGE_HIGH ∨ v.mw < OUT_OF_RANGE_LOW then
    [Warning.outOfRange Channel.microwave v.mw] else []) ++
  (if v.grill > OUT_OF_RANGE_HIGH ∨ v.grill < OUT_OF_RANGE_LOW then
    [Warning.outOfRange Channel.grill v.grill] else []) ++
  (if v.buzzer > OUT_OF_RANGE_HIGH ∨ v.buzzer < OUT_OF_RANGE_LOW then
    [Warning.outOfRange Channel.buzzer v.buzzer] else [])

/-- `DAQHandler._check_warnings`, acting on the handler state, with the
sample's voltages and timestamp as inputs.  Returns the updated state and
the ordered warning list of the sample. -/
def checkWarnings (s : DAQState) (v : Voltages) (t : ℚ) : DAQState × List Warning :=
  let doorW : List Warning :=
    if v.door ≥ ON_THRESHOLD ∧ s.last_door_state = false then [Warning.doorOpened] else []
  let s1 : DAQState :=
    { s with
        door_open_count :=
          if v.door ≥ ON_THRESHOLD ∧ s.last_door_state = false then
            s.door_open_count + 1
          else s.door_open_count
        last_door_state := decide (v.door ≥ ON_THRESHOLD) }
  if v.mw ≥ ON_THRESHOLD ∧ v.grill ≥ ON_THRESHOLD then
    match s1.overlap_start_time with
    | none => ({ s1 with overlap_start_time := some t }, rangeWarnings v ++ doorW)
    | some t0 =>
        if t - t0 > OVERLAP_TOLERANCE then
          ({ s1 with overlap_duration := t - t0 },
           rangeWarnings v ++ doorW ++ [Warning.overlap (t - t0)])
        else
          ({ s1 with overlap_duration := t - t0 }, rangeWarnings v ++ doorW)
  else
    ({ s1 with overlap_start_time := none, overlap_duration := 0 },
     rangeWarnings v ++ doorW)

/-- Fold `checkWarnings` over a list of (voltages, timestamp) ticks,
collecting all warnings in order.  Models calling `read_sample` once per
tick as far as warning detection is concerned. -/
def runWarnTicks (s : DAQState) (ticks : List (Voltages × ℚ)) : DAQState × List Warning :=
  ticks.foldl
    (fun acc tick =>
      let r := checkWarnings acc.1 tick.1 tick.2
      (r.1, acc.2 ++ r.2))
    (s, [])

/-! ### `calculate_defrost_sectors` (daq_handler.py lines 209-246) -/

/-- One element of the sector list built by `calculate_defrost_sectors`. -/
structure Sector where
  name : String
  start_time : ℚ
  end_time : ℚ
  duration : ℚ
  expected_power : ℚ
  on_time : ℚ
  off_time : ℚ
  period : ℚ
  deriving Repr, DecidableEq

/-- The error message for an out-of-range weight, built from the
configured bounds exactly as the Python f-string does. -/
def defrostWeightErrMsg : String :=
  "Weight must be between " ++ toString DEFROST_WEIGHT_MIN ++ "-" ++
    toString DEFROST_WEIGHT_MAX ++ "g"

/-- Zero-padded two-digit rendering used by the `:02d` format spec. -/
def pad2 (n : ℤ) : String :=
  if n < 10 ∧ 0 ≤ n then "0" ++ toString n else toString n

/-- `DAQHandler.calculate_defrost_sectors` (pure part: the returned
`(sectors, message)` pair; the `self.defrost_*` assignments are applied by
`applyDefrost` below).  A weight outside the configured range yields the
error message instead of a schedule. -/
def calculateDefrostSectors (weight_grams : ℚ) :
    Except String (List Sector × String) :=
  if weight_grams < (DEFROST_WEIGHT_MIN : ℚ) ∨ weight_grams > (DEFROST_WEIGHT_MAX : ℚ) then
    Except.error defrostWeightErrMsg
  else
    let total_time_minutes := DEFROST_CONSTANT_FACTOR * (weight_grams / DEFROST_WEIGHT_STEP)
    let total_time_seconds := total_time_minutes * 60
    let res :=
      DEFROST_SECTORS.foldl
        (fun (acc : List Sector × ℚ) (sc : SectorConfig) =>
          let sector_duration := total_time_seconds * sc.percentage
          (acc.1 ++ [{ name := sc.name
                       start_time := acc.2
                       end_time := acc.2 + sector_duration
                       duration := sector_duration
                       expected_power := sc.power
                       on_time := sc.on_time
                       off_time := sc.off_time
                       period := sc.period }],
           acc.2 + sector_duration))
        ([], 0)
    let label := "Total time: " ++ toString (Int.floor total_time_minutes) ++ ":" ++
      pad2 (Int.floor ((total_time_minutes - Int.floor total_time_minutes) * 60))
    Except.ok (res.1, label)

/-! ### `get_statistics` and `analyze_pass_fail` (daq_handler.py 259-327) -/

/-- The statistics dict of `get_statistics`, with `datetime.now()` passed
in as `now`. -/
structure Stats where
  duration : ℚ
  sample_count : ℕ
  door_opens : ℕ
  mw_avg_power : ℚ
  grill_avg_power : ℚ
  mw_samples : ℕ
  grill_samples : ℕ
  deriving Repr, DecidableEq

def getStatistics (s : DAQState) (now : ℚ) : Stats :=
  let duration := match s.start_time with
    | none => 0
    | some st => now - st
  let powers := calculatePowers s
  { duration := duration
    sample_count := s.sample_count
    door_opens := s.door_open_count
    mw_avg_power := powers.mw
    grill_avg_power := powers.grill
    mw_samples := powers.mw_samples
    grill_samples := powers.grill_samples }

/-- A PASS / FAIL / N-A tag for a sub-metric or the overall result. -/
inductive ResTag where
  | pass | fail | na
  deriving Repr, DecidableEq

/-- One detail line of `analyze_pass_fail` (the data the formatted string
carries). -/
inductive Detail where
  | mwLine (pass : Bool) (measured expected tolerance : ℚ)
  | grillLine (pass : Bool) (measured expected tolerance : ℚ)
  | doorLine (opens : ℕ)
  deriving Repr, DecidableEq

/-- The results dict of `analyze_pass_fail`. -/
structure PassFail where
  overall_result : ResTag
  mw_result : ResTag
  grill_result : ResTag
  mw_measured : ℚ
  grill_measured : ℚ
  mw_expected : Option Expect
  grill_expected : Option Expect
  details : List Detail
  deriving Repr, DecidableEq

/-- The `TypeError` raised when Python evaluates `'variable' - tolerance`. -/
def grillVariableTypeError : String :=
  "TypeError: unsupported operand types for str and int"

/-- `DAQHandler.analyze_pass_fail`.  The MW branch runs only when
`expected_mw_power` is set and is not the `'variable'` sentinel; the Grill
branch runs whenever `expected_grill_power` is set, so a `'variable'`
grill expectation reaches `expected - tolerance` and raises a
`TypeError`, modelled as `Except.error`. -/
def analyzePassFail (s : DAQState) (now : ℚ) : Except String PassFail :=
  let stats := getStatistics s now
  let base : PassFail :=
    { overall_result := ResTag.pass
      mw_result := ResTag.na
      grill_result := ResTag.na
      mw_measured := stats.mw_avg_power
      grill_measured := stats.grill_avg_power
      mw_expected := s.expected_mw_power
      grill_expected := s.expected_grill_power
      details := [] }
  let r1 : PassFail :=
    match s.expected_mw_power with
    | some (Expect.val e) =>
        let tolerance := PASS_FAIL_TOLERANCE
        let lower := e - tolerance
        let upper := e + tolerance
        if lower ≤ stats.mw_avg_power ∧ stats.mw_avg_power ≤ upper then
          { base with mw_result := ResTag.pass
                      details := base.details ++
                        [Detail.mwLine true stats.mw_avg_power e tolerance] }
        else
          { base with mw_result := ResTag.fail
                      overall_result := ResTag.fail
                      details := base.details ++
                        [Detail.mwLine false stats.mw_avg_power e tolerance] }
    | _ => base
  match s.expected_grill_power with
  | some Expect.var => Except.error grillVariableTypeError
  | none =>
      let r3 := if stats.door_opens > 0 then
          { r1 with details := r1.details ++ [Detail.doorLine stats.door_opens] }
        else r1
      Except.ok r3
  | some (Expect.val e) =>
      let tolerance := PASS_FAIL_TOLERANCE
      let lower := e - tolerance
      let upper := e + tolerance
      let r2 : PassFail :=
        if lower ≤ stats.grill_avg_power ∧ stats.grill_avg_power ≤ upper then
          { r1 with grill_result := ResTag.pass
                    details := r1.details ++
                      [Detail.grillLine true stats.grill_avg_power e tolerance] }
        else
          { r1 with grill_result := ResTag.fail
                    overall_result := ResTag.fail
                    details := r1.details ++
                      [Detail.grillLine false stats.grill_avg_power e tolerance] }
      let r3 := if stats.door_opens > 0 then
          { r2 with details := r2.details ++ [Detail.doorLine stats.door_opens] }
        else r2
      Except.ok r3

/-! ### `get_all_data` (daq_handler.py lines 329-376) -/

/-- One export row built by `get_all_data` (keys `H`, `Min`, `Sec`, `ms`,
the five voltage columns, `MW_Power%` and `Grill_Power%`). -/
structure Row where
  h : ℤ
  min : ℤ
  sec : ℤ
  ms : ℤ
  door_sw : ℚ
  lamp : ℚ
  microwave : ℚ
  grill : ℚ
  buzzer : ℚ
  mwPower : ℚ
  grillPower : ℚ
  deriving Repr, DecidableEq

def defaultRow : Row := ⟨0, 0, 0, 0, 0, 0, 0, 0, 0, 0, 0⟩

/-- Number of window samples at or above the ON threshold. -/
def countOn (l : List ℚ) : ℕ :=
  l.countP (fun v => decide (ON_THRESHOLD ≤ v))

/-- The loop body of `get_all_data`: the export row for sample index `i`.
`get_all_data` is only called after a recording, when `start_time` is
set; `start_time.getD 0` stands for that set value.  The power window is
`buffer[i-100:i]` when `i ≥ POWER_CALC_WINDOW` and `buffer[:i+1]`
otherwise. -/
def exportRow (s : DAQState) (i : ℕ) : Row :=
  let elapsed := s.timestamps.getD i 0 - s.start_time.getD 0
  let mw_window := if i ≥ POWER_CALC_WINDOW then
      (s.mwBuf.drop (i - POWER_CALC_WINDOW)).take POWER_CALC_WINDOW
    else s.mwBuf.take (i + 1)
  let grill_window := if i ≥ POWER_CALC_WINDOW then
      (s.grillBuf.drop (i - POWER_CALC_WINDOW)).take POWER_CALC_WINDOW
    else s.grillBuf.take (i + 1)
  { h := Int.floor (elapsed / 3600)
    min := Int.floor ((elapsed - 3600 * Int.floor (elapsed / 3600)) / 60)
    sec := Int.floor (elapsed - 60 * Int.floor (elapsed / 60))
    ms := Int.floor ((elapsed - Int.floor elapsed) * 1000)
    door_sw := s.doorBuf.getD i 0
    lamp := s.lampBuf.getD i 0
    microwave := s.mwBuf.getD i 0
    grill := s.grillBuf.getD i 0
    buzzer := s.buzzerBuf.getD i 0
    mwPower := if mw_window.length > 0 then
        ((countOn mw_window : ℚ) / (mw_window.length : ℚ)) * 100 else 0
    grillPower := if grill_window.length > 0 then
        ((countOn grill_window : ℚ) / (grill_window.length : ℚ)) * 100 else 0 }

/-- `DAQHandler.get_all_data`: one export row per recorded timestamp. -/
def getAllData (s : DAQState) : List Row :=
  (List.range s.timestamps.length).map (exportRow s)

/-- Modelled from the spec: the retrospective per-index power of §4.2 /
claim C1 — for sample index `i` the window is the up-to-100 samples
strictly preceding `i` (exclusive of sample `i`), and the power is 100
times the fraction of window samples at or above the threshold, 0 for an
empty window. -/
def specExclusivePower (buf : List ℚ) (i : ℕ) : ℚ :=
  let window := (buf.take i).drop (i - POWER_CALC_WINDOW)
  if window.length > 0 then
    ((countOn window : ℚ) / (window.length : ℚ)) * 100
  else 0

/-! ### The run-state machine (state_machine.py) -/

/-- `MicrowaveState`. -/
inductive MState where
  | IDLE | RUN | PAUSE | SLEEP | LOCKED
  deriving Repr, DecidableEq

/-- The boolean signals read from the `daq_signals` dict (a missing key
reads as `False`). -/
structure Signals where
  door_open : Bool := false
  start_pressed : Bool := false
  cancel_pressed : Bool := false
  knob_turned : Bool := false
  lock_combo : Bool := false
  unlock_combo : Bool := false
  deriving Repr, DecidableEq

/-- The fields of `MicrowaveStateMachine`. -/
structure SM where
  state : MState
  last_interaction : ℚ
  sleep_timeout : ℚ
  locked : Bool
  deriving Repr, DecidableEq

/-- `MicrowaveStateMachine.__init__` with the default 900 s timeout,
constructed at time `t0`. -/
def smInit (t0 : ℚ) : SM :=
  { state := MState.IDLE, last_interaction := t0, sleep_timeout := 900, locked := false }

/-- `MicrowaveStateMachine.update`, with `time.time()` passed in as
`now`.  Returns the machine after the update; the Python return value is
its `state` field. -/
def smUpdate (m : SM) (sig : Signals) (now : ℚ) : SM :=
  if m.locked then
    if sig.unlock_combo then
      { m with locked := false, state := MState.IDLE, last_interaction := now }
    else
      { m with state := MState.LOCKED }
  else
    let interaction := sig.start_pressed || sig.cancel_pressed ||
      sig.knob_turned || sig.door_open
    let m1 := if interaction then
        { m with last_interaction := now
                 state := if m.state = MState.SLEEP then MState.IDLE else m.state }
      else m
    if sig.lock_combo then
      { m1 with locked := true, state := MState.LOCKED }
    else if now - m1.last_interaction > m1.sleep_timeout then
      { m1 with state := MState.SLEEP }
    else
      match m1.state with
      | MState.IDLE =>
          if sig.start_pressed && !sig.door_open then { m1 with state := MState.RUN } else m1
      | MState.RUN =>
          if sig.door_open then { m1 with state := MState.PAUSE }
          else if sig.cancel_pressed then { m1 with state := MState.IDLE }
          else m1
      | MState.PAUSE =>
          if !sig.door_open && sig.start_pressed then { m1 with state := MState.RUN }
          else if sig.cancel_pressed then { m1 with state := MState.IDLE }
          else m1
      | MState.SLEEP =>
          if sig.start_pressed || sig.cancel_pressed || sig.knob_turned || sig.door_open then
            { m1 with state := MState.IDLE, last_interaction := now }
          else m1
      | MState.LOCKED => m1

/-! ### Concrete fixtures used by the theorems below -/

/-- A 150-sample history: samples 1-50 below threshold, 51-150 at 5 V. -/
def s150 : DAQState :=
  { initState with
      mwBuf := List.replicate 50 (0 : ℚ) ++ List.replicate 100 (5 : ℚ)
      grillBuf := List.replicate 50 (0 : ℚ) ++ List.replicate 100 (5 : ℚ) }

/-- A recording of a single sample whose Microwave voltage is 5 V. -/
def sC1 : DAQState :=
  { initState with
      timestamps := [0]
      start_time := some 0
      doorBuf := [0], lampBuf := [0], mwBuf := [5], grillBuf := [0], buzzerBuf := [0] }

/-- A 101-sample recording with every Microwave sample at 5 V. -/
def s101 : DAQState :=
  { initState with
      timestamps := List.replicate 101 (0 : ℚ)
      start_time := some 0
      doorBuf := List.replicate 101 (0 : ℚ)
      lampBuf := List.replicate 101 (0 : ℚ)
      mwBuf := List.replicate 101 (5 : ℚ)
      grillBuf := List.replicate 101 (0 : ℚ)
      buzzerBuf := List.replicate 101 (0 : ℚ) }

/-- A handler whose grill expectation is the `'variable'` sentinel. -/
def sGVar : DAQState :=
  { initState with expected_grill_power := some Expect.var }

/-- A connected handler carrying leftovers from a previous recording. -/
def sLeft : DAQState :=
  { initState with
      is_connected := true
      mwBuf := [1, 2], grillBuf := [3, 4], doorBuf := [0, 5], lampBuf := [0, 0]
      buzzerBuf := [0, 0]
      timestamps := [10, 11]
      sample_count := 2
      door_open_count := 1
      last_door_state := true
      overlap_start_time := some 7
      overlap_duration := 3 }

/-! ## Claim theorems -/

/-- C4 counterexample: a negative door voltage is below 0.5 V, yet the
code classifies it as `"Unknown"`, not as the CLOSED-equivalent `"ON"`,
refuting "for every voltage < 0.5 the result is CLOSED-equivalent". -/
theorem doorStatus_neg_counterexample :
    (-1 : ℚ) < DOOR_CLOSED_THRESHOLD ∧ doorStatus (-1) = "Unknown" ∧
      doorStatus (-1) ≠ "ON" := by
  refine ⟨by norm_num [DOOR_CLOSED_THRESHOLD], by norm_num [doorStatus], ?_⟩
  have h : doorStatus (-1) = "Unknown" := by norm_num [doorStatus]
  rw [h]
  decide

/-- C4 (amended): door classification is a pure function of the door
voltage: the CLOSED-equivalent status `"ON"` iff the voltage is in
[0, 0.5), the OPEN-equivalent status `"OFF"` iff it is in [4.5, 5.0],
and `"Unknown"` on the dead zone (0.5, 4.5) (as well as for negative
voltages and voltages above 5.0). -/
theorem doorStatus_spec (v : ℚ) :
    (doorStatus v = "ON" ↔ 0 ≤ v ∧ v < DOOR_CLOSED_THRESHOLD) ∧
    (doorStatus v = "OFF" ↔ 4.5 ≤ v ∧ v ≤ 5.0) ∧
    (DOOR_CLOSED_THRESHOLD < v ∧ v < 4.5 → doorStatus v = "Unknown") := by
  unfold doorStatus DOOR_CLOSED_THRESHOLD
  split_ifs with h1 h2
  · refine ⟨by simp [h1], ?_, ?_⟩
    · constructor
      · intro h; exact absurd h (by decide)
      · rintro ⟨h45, _⟩; exfalso; linarith [h1.2]
    · rintro ⟨h05, _⟩; exfalso; linarith [h1.2]
  · refine ⟨?_, by simp [h2], ?_⟩
    · constructor
      · intro h; exact absurd h (by decide)
      · intro h; exact absurd h h1
    · rintro ⟨_, h45⟩; exfalso; linarith [h2.1]
  · refine ⟨?_, ?_, fun _ => rfl⟩
    · constructor
      · intro h; exact absurd h (by decide)
      · intro h; exact absurd h h1
    · constructor
      · intro h; exact absurd h (by decide)
      · intro h; exact absurd h h2

/-- C4 witness: the dead-zone sample voltage 2.0 classifies as
`"Unknown"`. -/
theorem doorStatus_spec_witness : doorStatus 2.0 = "Unknown" :=
  (doorStatus_spec 2.0).2.2 (by norm_num [DOOR_CLOSED_THRESHOLD])

set_option maxRecDepth 4000 in
/-- C3: the live power of each channel is 100 times the count of
at-threshold samples among the last `min 100 n` buffer entries divided by
`min 100 n`, reported with that window length; an empty history yields
power 0 with window length 0; and the 150-sample fixture whose last 100
samples are all at 5 V yields exactly 100 over a window of 100. -/
theorem calculatePowers_spec (s : DAQState) :
    ((calculatePowers s).mw_samples = min POWER_CALC_WINDOW s.mwBuf.length) ∧
    ((calculatePowers s).mw =
      if s.mwBuf.length = 0 then 0
      else 100 * (countOn (s.mwBuf.drop (s.mwBuf.length - POWER_CALC_WINDOW)) : ℚ) /
        ((min POWER_CALC_WINDOW s.mwBuf.length : ℕ) : ℚ)) ∧
    ((calculatePowers s).grill_samples = min POWER_CALC_WINDOW s.grillBuf.length) ∧
    ((calculatePowers s).grill =
      if s.grillBuf.length = 0 then 0
      else 100 * (countOn (s.grillBuf.drop (s.grillBuf.length - POWER_CALC_WINDOW)) : ℚ) /
        ((min POWER_CALC_WINDOW s.grillBuf.length : ℕ) : ℚ)) ∧
    (calculatePowers s150).mw = 100 ∧ (calculatePowers s150).mw_samples = 100 ∧
    (calculatePowers initState).mw = 0 ∧ (calculatePowers initState).mw_samples = 0 := by
  have hsamp : ∀ buf : List ℚ,
      (if buf.length > 0 then (liveWindow buf).length else 0) =
        min POWER_CALC_WINDOW buf.length := by
    intro buf
    by_cases h0 : buf.length = 0
    · rw [List.eq_nil_of_length_eq_zero h0]
      simp
    · have hpos : buf.length > 0 := Nat.pos_of_ne_zero h0
      rw [if_pos hpos]
      unfold liveWindow
      by_cases h100 : buf.length ≥ POWER_CALC_WINDOW
      · rw [if_pos h100, List.length_drop, min_eq_left h100]
        omega
      · rw [if_neg h100, min_eq_right (by omega)]
  have hval : ∀ buf : List ℚ,
      (if buf.length > 0 then
        if (liveWindow buf).length > 0 then
          (((liveWindow buf).countP (fun v => decide (ON_THRESHOLD ≤ v)) : ℚ) /
            ((liveWindow buf).length : ℚ)) * 100
        else 0
      else 0) =
      (if buf.length = 0 then 0
       else 100 * (countOn (buf.drop (buf.length - POWER_CALC_WINDOW)) : ℚ) /
         ((min POWER_CALC_WINDOW buf.length : ℕ) : ℚ)) := by
    intro buf
    by_cases h0 : buf.length = 0
    · rw [List.eq_nil_of_length_eq_zero h0]
      simp [liveWindow, countOn]
    · have hpos : buf.length > 0 := Nat.pos_of_ne_zero h0
      rw [if_pos hpos, if_neg h0]
      by_cases h100 : buf.length ≥ POWER_CALC_WINDOW
      · have hwin : liveWindow buf = buf.drop (buf.length - POWER_CALC_WINDOW) := by
          unfold liveWindow
          rw [if_pos h100]
        have hlen : (liveWindow buf).length = POWER_CALC_WINDOW := by
          rw [hwin, List.length_drop]
          omega
        have hmin : min POWER_CALC_WINDOW buf.length = POWER_CALC_WINDOW := min_eq_left h100
        rw [hlen, hwin, hmin, if_pos (show POWER_CALC_WINDOW > 0 by norm_num [POWER_CALC_WINDOW])]
        simp only [countOn]
        ring
      · have hwin : liveWindow buf = buf := by
          unfold liveWindow
          rw [if_neg h100]
        have hdrop : buf.drop (buf.length - POWER_CALC_WINDOW) = buf := by
          have h : buf.length - POWER_CALC_WINDOW = 0 := by omega
          rw [h, List.drop_zero]
        have hmin : min POWER_CALC_WINDOW buf.length = buf.length := min_eq_right (by omega)
        rw [hwin, if_pos hpos, hdrop, hmin]
        simp only [countOn]
        ring
  have hs150buf : s150.mwBuf = List.replicate 50 (0 : ℚ) ++ List.replicate 100 (5 : ℚ) := rfl
  have hs150len : s150.mwBuf.length = 150 := by rw [hs150buf]; simp
  have h50 : (150 : ℕ) - POWER_CALC_WINDOW = 50 := by norm_num [POWER_CALC_WINDOW]
  have hs150drop : s150.mwBuf.drop (s150.mwBuf.length - POWER_CALC_WINDOW) =
      List.replicate 100 (5 : ℚ) := by
    rw [hs150len, h50, hs150buf]
    exact List.drop_left' (by simp)
  have hs150count : countOn (List.replicate 100 (5 : ℚ)) = 100 := by
    rw [countOn, List.countP_replicate]
    norm_num [ON_THRESHOLD]
  refine ⟨hsamp s.mwBuf, hval s.mwBuf, hsamp s.grillBuf, hval s.grillBuf, ?_, ?_, ?_, ?_⟩
  · refine (hval s150.mwBuf).trans ?_
    rw [hs150drop, hs150count, hs150len]
    norm_num [POWER_CALC_WINDOW]
  · refine (hsamp s150.mwBuf).trans ?_
    rw [hs150len]
    norm_num [POWER_CALC_WINDOW]
  · refine (hval initState.mwBuf).trans ?_
    rw [show initState.mwBuf = ([] : List ℚ) from rfl]
    simp
  · refine (hsamp initState.mwBuf).trans ?_
    rw [show initState.mwBuf = ([] : List ℚ) from rfl]
    simp

/-- C10: on a connected handler, `start_recording` resets `sample_count`
and `door_open_count` to 0 and clears every channel buffer and the
timestamps, while leaving `overlap_start_time`, `overlap_duration` and
`last_door_state` exactly as the previous recording left them. -/
theorem startRecording_spec (s : DAQState) (now : ℚ) (h : s.is_connected = true) :
    (startRecording s now).1.sample_count = 0 ∧
    (startRecording s now).1.door_open_count = 0 ∧
    (startRecording s now).1.doorBuf = [] ∧
    (startRecording s now).1.lampBuf = [] ∧
    (startRecording s now).1.mwBuf = [] ∧
    (startRecording s now).1.grillBuf = [] ∧
    (startRecording s now).1.buzzerBuf = [] ∧
    (startRecording s now).1.timestamps = [] ∧
    (startRecording s now).1.is_recording = true ∧
    (startRecording s now).1.start_time = some now ∧
    (startRecording s now).1.overlap_start_time = s.overlap_start_time ∧
    (startRecording s now).1.overlap_duration = s.overlap_duration ∧
    (startRecording s now).1.last_door_state = s.last_door_state ∧
    (startRecording s now).2 = (true, "Recording Started") := by
  have hne : ¬(s.is_connected = false) := by rw [h]; simp
  simp [startRecording, if_neg hne]

/-- C10 witness: starting a recording on a connected handler carrying
leftover overlap tracking and door state keeps those three fields. -/
theorem startRecording_spec_witness :
    (startRecording sLeft 20).1.sample_count = 0 ∧
    (startRecording sLeft 20).1.overlap_start_time = some 7 ∧
    (startRecording sLeft 20).1.overlap_duration = 3 ∧
    (startRecording sLeft 20).1.last_door_state = true := by
  have h := startRecording_spec sLeft 20 rfl
  exact ⟨h.1, h.2.2.2.2.2.2.2.2.2.2.1, h.2.2.2.2.2.2.2.2.2.2.2.1, h.2.2.2.2.2.2.2.2.2.2.2.2.1⟩

/-- C7: the defrost scheduler fails, with the error message naming the
configured bounds 100 and 2000, exactly when the weight is outside
[100, 2000], and returns a schedule otherwise. -/
theorem calculateDefrostSectors_validation (w : ℚ) :
    (w < (DEFROST_WEIGHT_MIN : ℚ) ∨ w > (DEFROST_WEIGHT_MAX : ℚ) →
      calculateDefrostSectors w = Except.error defrostWeightErrMsg) ∧
    ((DEFROST_WEIGHT_MIN : ℚ) ≤ w → w ≤ (DEFROST_WEIGHT_MAX : ℚ) →
      ∃ p, calculateDefrostSectors w = Except.ok p) ∧
    defrostWeightErrMsg = "Weight must be between 100-2000g" := by
  refine ⟨?_, ?_, rfl⟩
  · intro hout
    unfold calculateDefrostSectors
    rw [if_pos hout]
  · intro h1 h2
    unfold calculateDefrostSectors
    rw [if_neg (by push_neg; exact ⟨h1, h2⟩)]
    exact ⟨_, rfl⟩

/-- C7 witness: weights 99 and 2001 are rejected with the bounds-naming
message; weights 100 and 2000 are accepted. -/
theorem calculateDefrostSectors_validation_witness :
    calculateDefrostSectors 99 = Except.error defrostWeightErrMsg ∧
    calculateDefrostSectors 2001 = Except.error defrostWeightErrMsg ∧
    (∃ p, calculateDefrostSectors 100 = Except.ok p) ∧
    (∃ p, calculateDefrostSectors 2000 = Except.ok p) := by
  refine ⟨(calculateDefrostSectors_validation 99).1 ?_,
    (calculateDefrostSectors_validation 2001).1 ?_,
    (calculateDefrostSectors_validation 100).2.1 ?_ ?_,
    (calculateDefrostSectors_validation 2000).2.1 ?_ ?_⟩ <;>
    norm_num [DEFROST_WEIGHT_MIN, DEFROST_WEIGHT_MAX]

/-- C6: for every weight in [100, 2000] the computed schedule is a
contiguous partition of the total time: the first sector starts at 0,
each sector's end is the next sector's start, end-times are
non-decreasing, the last end equals `2.05 * (w / 100) * 60` seconds
exactly, and the three configured percentages sum to 1. -/
theorem calculateDefrostSectors_partition (w : ℚ)
    (h1 : (DEFROST_WEIGHT_MIN : ℚ) ≤ w) (h2 : w ≤ (DEFROST_WEIGHT_MAX : ℚ)) :
    ∃ secs label, calculateDefrostSectors w = Except.ok (secs, label) ∧
      secs.head?.map Sector.start_time = some 0 ∧
      List.Chain' (fun a b => Sector.end_time a = Sector.start_time b) secs ∧
      List.Chain' (fun a b => Sector.end_time a ≤ Sector.end_time b) secs ∧
      secs.getLast?.map Sector.end_time =
        some (DEFROST_CONSTANT_FACTOR * (w / DEFROST_WEIGHT_STEP) * 60) ∧
      (DEFROST_SECTORS.map SectorConfig.percentage).sum = 1 := by
  have hw : (0 : ℚ) ≤ w := le_trans (by norm_num [DEFROST_WEIGHT_MIN]) h1
  have hT : (0 : ℚ) ≤ DEFROST_CONSTANT_FACTOR * (w / DEFROST_WEIGHT_STEP) * 60 := by
    unfold DEFROST_CONSTANT_FACTOR DEFROST_WEIGHT_STEP
    positivity
  unfold calculateDefrostSectors
  rw [if_neg (by push_neg; exact ⟨h1, h2⟩)]
  simp only [DEFROST_SECTORS, List.foldl]
  refine ⟨_, _, rfl, rfl, ?_, ?_, ?_, ?_⟩
  · refine List.chain'_cons.mpr ⟨by ring, List.chain'_cons.mpr ⟨by ring, ?_⟩⟩
    exact List.chain'_singleton _
  · refine List.chain'_cons.mpr ⟨?_, List.chain'_cons.mpr ⟨?_, List.chain'_singleton _⟩⟩
    · set T := DEFROST_CONSTANT_FACTOR * (w / DEFROST_WEIGHT_STEP) * 60 with hTdef
      nlinarith [hT]
    · set T := DEFROST_CONSTANT_FACTOR * (w / DEFROST_WEIGHT_STEP) * 60 with hTdef
      nlinarith [hT]
  · simp only [List.getLast?, Option.map]
    norm_num
    ring
  · norm_num

/-- C6 witness: weight 500 g yields a partitioned schedule. -/
theorem calculateDefrostSectors_partition_witness :
    ∃ secs label, calculateDefrostSectors 500 = Except.ok (secs, label) ∧
      secs.head?.map Sector.start_time = some 0 ∧
      List.Chain' (fun a b => Sector.end_time a = Sector.start_time b) secs ∧
      List.Chain' (fun a b => Sector.end_time a ≤ Sector.end_time b) secs ∧
      secs.getLast?.map Sector.end_time =
        some (DEFROST_CONSTANT_FACTOR * ((500 : ℚ) / DEFROST_WEIGHT_STEP) * 60) ∧
      (DEFROST_SECTORS.map SectorConfig.percentage).sum = 1 :=
  calculateDefrostSectors_partition 500
    (by norm_num [DEFROST_WEIGHT_MIN]) (by norm_num [DEFROST_WEIGHT_MAX])

/-- C1 counterexample: a one-sample recording with the Microwave sample
at 5 V.  For row index 0 the claim's exclusive window (samples strictly
preceding index 0) is empty, giving power 0, but the export computes
`MW_Power%` = 100 because for `i < 100` the code windows over
`buffer[:i+1]`, which includes sample `i` itself. -/
theorem getAllData_exclusive_counterexample :
    ((getAllData sC1).getD 0 defaultRow).mwPower = 100 ∧
    specExclusivePower sC1.mwBuf 0 = 0 ∧ (100 : ℚ) ≠ 0 := by
  have hts : sC1.timestamps = [(0 : ℚ)] := rfl
  refine ⟨?_, ?_, by norm_num⟩
  · have hrow : (getAllData sC1).getD 0 defaultRow = exportRow sC1 0 := by
      rw [getAllData, List.getD_eq_getElem?_getD, List.getElem?_map,
        List.getElem?_range (by rw [hts]; norm_num)]
      rfl
    rw [hrow]
    have hval : (exportRow sC1 0).mwPower =
        (if (sC1.mwBuf.take (0 + 1)).length > 0 then
          ((countOn (sC1.mwBuf.take (0 + 1)) : ℚ) /
            ((sC1.mwBuf.take (0 + 1)).length : ℚ)) * 100
        else 0) := rfl
    rw [hval, show sC1.mwBuf = [(5 : ℚ)] from rfl]
    norm_num [countOn, List.countP_cons, ON_THRESHOLD]
  · rw [specExclusivePower]
    simp

/-- C1 (amended): in the full-history export, the per-row power at index
`i` is computed over the 100 samples strictly preceding `i` (exclusive of
sample `i`) only when `i ≥ 100`; for `i < 100` it is computed over
samples `0..i` inclusive of sample `i` (window length `i + 1`), in both
cases as 100 times the fraction of window samples with voltage ≥ 4.6. -/
theorem getAllData_power_windows (s : DAQState) (i : ℕ)
    (hi : i < s.timestamps.length)
    (hmw : s.mwBuf.length = s.timestamps.length)
    (hg : s.grillBuf.length = s.timestamps.length) :
    (POWER_CALC_WINDOW ≤ i →
      ((getAllData s).getD i defaultRow).mwPower = specExclusivePower s.mwBuf i ∧
      ((getAllData s).getD i defaultRow).grillPower = specExclusivePower s.grillBuf i) ∧
    (i < POWER_CALC_WINDOW →
      ((getAllData s).getD i defaultRow).mwPower =
        100 * (countOn (s.mwBuf.take (i + 1)) : ℚ) / ((i + 1 : ℕ) : ℚ) ∧
      ((getAllData s).getD i defaultRow).grillPower =
        100 * (countOn (s.grillBuf.take (i + 1)) : ℚ) / ((i + 1 : ℕ) : ℚ)) ∧
    (getAllData s).length = s.timestamps.length := by
  have hrow : (getAllData s).getD i defaultRow = exportRow s i := by
    rw [getAllData, List.getD_eq_getElem?_getD, List.getElem?_map, List.getElem?_range hi]
    rfl
  have hlen : (getAllData s).length = s.timestamps.length := by
    rw [getAllData, List.length_map, List.length_range]
  have hcode : ∀ buf : List ℚ, buf.length = s.timestamps.length →
      ((POWER_CALC_WINDOW ≤ i →
        (if (if i ≥ POWER_CALC_WINDOW then
              (buf.drop (i - POWER_CALC_WINDOW)).take POWER_CALC_WINDOW
            else buf.take (i + 1)).length > 0 then
          ((countOn (if i ≥ POWER_CALC_WINDOW then
              (buf.drop (i - POWER_CALC_WINDOW)).take POWER_CALC_WINDOW
            else buf.take (i + 1)) : ℚ) /
            ((if i ≥ POWER_CALC_WINDOW then
              (buf.drop (i - POWER_CALC_WINDOW)).take POWER_CALC_WINDOW
            else buf.take (i + 1)).length : ℚ)) * 100
        else 0) = specExclusivePower buf i) ∧
      (i < POWER_CALC_WINDOW →
        (if (if i ≥ POWER_CALC_WINDOW then
              (buf.drop (i - POWER_CALC_WINDOW)).take POWER_CALC_WINDOW
            else buf.take (i + 1)).length > 0 then
          ((countOn (if i ≥ POWER_CALC_WINDOW then
              (buf.drop (i - POWER_CALC_WINDOW)).take POWER_CALC_WINDOW
            else buf.take (i + 1)) : ℚ) /
            ((if i ≥ POWER_CALC_WINDOW then
              (buf.drop (i - POWER_CALC_WINDOW)).take POWER_CALC_WINDOW
            else buf.take (i + 1)).length : ℚ)) * 100
        else 0) =
          100 * (countOn (buf.take (i + 1)) : ℚ) / ((i + 1 : ℕ) : ℚ))) := by
    intro buf hb
    constructor
    · intro h100
      rw [if_pos h100]
      have hwineq : (buf.take i).drop (i - POWER_CALC_WINDOW) =
          (buf.drop (i - POWER_CALC_WINDOW)).take POWER_CALC_WINDOW := by
        rw [List.drop_take]
        congr 1
        omega
      have hlenw : ((buf.drop (i - POWER_CALC_WINDOW)).take POWER_CALC_WINDOW).length =
          POWER_CALC_WINDOW := by
        rw [List.length_take, List.length_drop]
        exact min_eq_left (by omega)
      rw [specExclusivePower]
      simp only [hwineq, hlenw]
    · intro hlt
      have hni : ¬(i ≥ POWER_CALC_WINDOW) := by omega
      rw [if_neg hni]
      have hlenw : (buf.take (i + 1)).length = i + 1 := by
        rw [List.length_take]
        exact min_eq_left (by omega)
      rw [hlenw, if_pos (by omega)]
      ring
  refine ⟨?_, ?_, hlen⟩
  · intro h100
    rw [hrow]
    exact ⟨((hcode s.mwBuf hmw).1 h100), ((hcode s.grillBuf hg).1 h100)⟩
  · intro hlt
    rw [hrow]
    exact ⟨((hcode s.mwBuf hmw).2 hlt), ((hcode s.grillBuf hg).2 hlt)⟩

/-- C1 witness: in a 101-sample recording with all Microwave samples at
5 V, row 100 is windowed exclusively and row 0 inclusively. -/
theorem getAllData_power_windows_witness :
    ((getAllData s101).getD 100 defaultRow).mwPower = specExclusivePower s101.mwBuf 100 ∧
    ((getAllData s101).getD 0 defaultRow).mwPower =
      100 * (countOn (s101.mwBuf.take 1) : ℚ) / ((1 : ℕ) : ℚ) := by
  have hts101 : s101.timestamps.length = 101 := by
    rw [show s101.timestamps = List.replicate 101 (0 : ℚ) from rfl]
    simp
  have hmw101 : s101.mwBuf.length = s101.timestamps.length := by
    rw [hts101, show s101.mwBuf = List.replicate 101 (5 : ℚ) from rfl]
    simp
  have hg101 : s101.grillBuf.length = s101.timestamps.length := by
    rw [hts101, show s101.grillBuf = List.replicate 101 (0 : ℚ) from rfl]
    simp
  have h1 := getAllData_power_windows s101 100 (by rw [hts101]; norm_num) hmw101 hg101
  have h2 := getAllData_power_windows s101 0 (by rw [hts101]; norm_num) hmw101 hg101
  exact ⟨(h1.1 (by norm_num [POWER_CALC_WINDOW])).1,
    (h2.2.1 (by norm_num [POWER_CALC_WINDOW])).1⟩

/-! ### Overlap warning behaviour (C5, C9) -/

/-- Voltage patterns for the overlap scenarios: both power channels at
5 V (≥ threshold), or both at 0 V. -/
def bothOn : Voltages := ⟨0, 0, 5, 5, 0⟩

def bothOff : Voltages := ⟨0, 0, 0, 0, 0⟩

/-- Both channels ON at 1 Hz for 3.0 s. -/
def ticksOverlap3s : List (Voltages × ℚ) :=
  [(bothOn, 0), (bothOn, 1), (bothOn, 2), (bothOn, 3)]

/-- Both channels ON for only 1.5 s. -/
def ticksOverlap15 : List (Voltages × ℚ) :=
  [(bothOn, 0), (bothOn, 3 / 4), (bothOn, 3 / 2)]

/-- A 3 s overlap, a clearing tick, then an independent second 3 s
overlap. -/
def ticksTwoEpisodes : List (Voltages × ℚ) :=
  [(bothOn, 0), (bothOn, 1), (bothOn, 2), (bothOn, 3), (bothOff, 4),
   (bothOn, 5), (bothOn, 6), (bothOn, 7), (bothOn, 8)]

lemma overlap_notMem_rangeWarnings (v : Voltages) (d : ℚ) :
    Warning.overlap d ∉ rangeWarnings v := by
  unfold rangeWarnings
  split_ifs <;> simp

lemma overlap_notMem_doorW (c : Prop) [Decidable c] (d : ℚ) :
    Warning.overlap d ∉ (if c then [Warning.doorOpened] else []) := by
  split_ifs <;> simp

/-- C5: per tick, when both channels are at or above the ON threshold:
with no overlap tracked, the tick's timestamp is stored and no overlap
warning is emitted; with a tracked start, the duration becomes the
timestamp difference and an overlap warning carrying it is emitted iff it
exceeds the 2 s tolerance.  When either channel is below threshold,
tracking is cleared unconditionally.  Consequently a continuous 3.0 s
overlap warns at least once, a 1.5 s overlap never warns, and an
independent later 3 s overlap warns afresh. -/
theorem overlap_tick_spec :
    (∀ (s : DAQState) (v : Voltages) (t : ℚ),
      v.mw ≥ ON_THRESHOLD → v.grill ≥ ON_THRESHOLD → s.overlap_start_time = none →
        (checkWarnings s v t).1.overlap_start_time = some t ∧
        ∀ d, Warning.overlap d ∉ (checkWarnings s v t).2) ∧
    (∀ (s : DAQState) (v : Voltages) (t t0 : ℚ),
      v.mw ≥ ON_THRESHOLD → v.grill ≥ ON_THRESHOLD → s.overlap_start_time = some t0 →
        (checkWarnings s v t).1.overlap_start_time = some t0 ∧
        (checkWarnings s v t).1.overlap_duration = t - t0 ∧
        (Warning.overlap (t - t0) ∈ (checkWarnings s v t).2 ↔
          t - t0 > OVERLAP_TOLERANCE)) ∧
    (∀ (s : DAQState) (v : Voltages) (t : ℚ),
      ¬(v.mw ≥ ON_THRESHOLD ∧ v.grill ≥ ON_THRESHOLD) →
        (checkWarnings s v t).1.overlap_start_time = none ∧
        (checkWarnings s v t).1.overlap_duration = 0 ∧
        ∀ d, Warning.overlap d ∉ (checkWarnings s v t).2) ∧
    Warning.overlap 3 ∈ (runWarnTicks initState ticksOverlap3s).2 ∧
    (∀ d, Warning.overlap d ∉ (runWarnTicks initState ticksOverlap15).2) ∧
    (runWarnTicks initState ticksTwoEpisodes).2 =
      [Warning.overlap 3, Warning.overlap 3] := by
  refine ⟨?_, ?_, ?_, ?_, ?_, ?_⟩
  · intro s v t hmw hg h0
    simp only [checkWarnings, hmw, hg]
    simp only [h0]
    refine ⟨by simp, ?_⟩
    intro d
    simp [overlap_notMem_rangeWarnings, overlap_notMem_doorW]
  · intro s v t t0 hmw hg h0
    simp only [checkWarnings, hmw, hg]
    simp only [h0]
    by_cases hd : t - t0 > OVERLAP_TOLERANCE
    · rw [if_pos hd]
      refine ⟨by simp [h0], by simp, ?_⟩
      simp [hd]
    · rw [if_neg hd]
      refine ⟨by simp [h0], by simp, ?_⟩
      simp [overlap_notMem_rangeWarnings, overlap_notMem_doorW, hd]
  · intro s v t hno
    simp only [checkWarnings]
    rw [if_neg hno]
    refine ⟨by simp, by simp, ?_⟩
    intro d
    simp [overlap_notMem_rangeWarnings, overlap_notMem_doorW]
  · norm_num [runWarnTicks, ticksOverlap3s, List.foldl, checkWarnings, rangeWarnings,
      bothOn, initState, ON_THRESHOLD, OUT_OF_RANGE_HIGH, OUT_OF_RANGE_LOW,
      OVERLAP_TOLERANCE]
  · norm_num [runWarnTicks, ticksOverlap15, List.foldl, checkWarnings, rangeWarnings,
      bothOn, initState, ON_THRESHOLD, OUT_OF_RANGE_HIGH, OUT_OF_RANGE_LOW,
      OVERLAP_TOLERANCE]
  · norm_num [runWarnTicks, ticksTwoEpisodes, List.foldl, checkWarnings, rangeWarnings,
      bothOn, bothOff, initState, ON_THRESHOLD, OUT_OF_RANGE_HIGH, OUT_OF_RANGE_LOW,
      OVERLAP_TOLERANCE]

/-- C5 witness: on a fresh handler a both-ON tick at time 3 starts
tracking at 3 and emits no overlap warning. -/
theorem overlap_tick_spec_witness :
    (checkWarnings initState bothOn 3).1.overlap_start_time = some 3 ∧
    Warning.overlap 3 ∉ (checkWarnings initState bothOn 3).2 := by
  have h := overlap_tick_spec.1 initState bothOn 3
    (by norm_num [bothOn, ON_THRESHOLD]) (by norm_num [bothOn, ON_THRESHOLD]) rfl
  exact ⟨h.1, h.2 3⟩

/-- A fresh handler already tracking an overlap that started at time 0. -/
def sTrack : DAQState := { initState with overlap_start_time := some 0 }

/-- C9: while both channels stay at or above the ON threshold, every tick
whose distance from the tracked overlap start exceeds the 2 s tolerance
emits an overlap warning (repeating policy), and the tracked start is
kept, so the next tick of the same episode warns again. -/
theorem overlap_warning_repeats (s : DAQState) (v : Voltages) (t t0 : ℚ)
    (hmw : v.mw ≥ ON_THRESHOLD) (hg : v.grill ≥ ON_THRESHOLD)
    (hstart : s.overlap_start_time = some t0) (hdur : t - t0 > OVERLAP_TOLERANCE) :
    Warning.overlap (t - t0) ∈ (checkWarnings s v t).2 ∧
    (checkWarnings s v t).1.overlap_start_time = some t0 := by
  simp only [checkWarnings, hmw, hg]
  simp only [hstart]
  rw [if_pos hdur]
  exact ⟨by simp, by simp [hstart]⟩

/-- C9 witness: with a tracked start at 0, the tick at 3 s warns, and the
immediately following tick at 4 s of the same episode warns again. -/
theorem overlap_warning_repeats_witness :
    Warning.overlap 3 ∈ (checkWarnings sTrack bothOn 3).2 ∧
    Warning.overlap 4 ∈ (checkWarnings (checkWarnings sTrack bothOn 3).1 bothOn 4).2 := by
  have hmw : bothOn.mw ≥ ON_THRESHOLD := by norm_num [bothOn, ON_THRESHOLD]
  have hg : bothOn.grill ≥ ON_THRESHOLD := by norm_num [bothOn, ON_THRESHOLD]
  have h1 := overlap_warning_repeats sTrack bothOn 3 0 hmw hg rfl
    (by norm_num [OVERLAP_TOLERANCE])
  have h2 := overlap_warning_repeats (checkWarnings sTrack bothOn 3).1 bothOn 4 0 hmw hg
    h1.2 (by norm_num [OVERLAP_TOLERANCE])
  exact ⟨by simpa using h1.1, by simpa using h2.1⟩

/-! ### Run-state machine trace (C8) -/

def sigNone : Signals := ⟨false, false, false, false, false, false⟩

def sigStart : Signals := { sigNone with start_pressed := true }

def sigDoorOpen : Signals := { sigNone with door_open := true }

def sigCancel : Signals := { sigNone with cancel_pressed := true }

def sigLock : Signals := { sigNone with lock_combo := true }

def sigUnlock : Signals := { sigNone with unlock_combo := true }

/-- C8: from IDLE (unlocked, with a non-negative inactivity timeout so
the timeout does not elapse during the interactions of the trace):
start with the door closed goes to RUN; opening the door goes to PAUSE;
closing the door and pressing start goes back to RUN; cancel goes to
IDLE; the lock combo goes to LOCKED; thereafter every input without
`unlock_combo` leaves the machine LOCKED, and any input with
`unlock_combo` yields IDLE and resets the interaction timer. -/
theorem smUpdate_trace (m0 : SM) (h0 : m0.state = MState.IDLE)
    (hl : m0.locked = false) (ht : 0 ≤ m0.sleep_timeout) (t1 t2 t3 t4 t5 : ℚ) :
    (smUpdate m0 sigStart t1).state = MState.RUN ∧
    (smUpdate (smUpdate m0 sigStart t1) sigDoorOpen t2).state = MState.PAUSE ∧
    (smUpdate (smUpdate (smUpdate m0 sigStart t1) sigDoorOpen t2) sigStart t3).state =
      MState.RUN ∧
    (smUpdate (smUpdate (smUpdate (smUpdate m0 sigStart t1) sigDoorOpen t2) sigStart t3)
      sigCancel t4).state = MState.IDLE ∧
    (smUpdate (smUpdate (smUpdate (smUpdate (smUpdate m0 sigStart t1) sigDoorOpen t2)
      sigStart t3) sigCancel t4) sigLock t5).state = MState.LOCKED ∧
    (∀ (sig : Signals) (t : ℚ), sig.unlock_combo = false →
      (smUpdate (smUpdate (smUpdate (smUpdate (smUpdate (smUpdate m0 sigStart t1)
        sigDoorOpen t2) sigStart t3) sigCancel t4) sigLock t5) sig t).state =
        MState.LOCKED) ∧
    (∀ (sig : Signals) (t : ℚ), sig.unlock_combo = true →
      (smUpdate (smUpdate (smUpdate (smUpdate (smUpdate (smUpdate m0 sigStart t1)
        sigDoorOpen t2) sigStart t3) sigCancel t4) sigLock t5) sig t).state =
        MState.IDLE ∧
      (smUpdate (smUpdate (smUpdate (smUpdate (smUpdate (smUpdate m0 sigStart t1)
        sigDoorOpen t2) sigStart t3) sigCancel t4) sigLock t5) sig t).last_interaction =
        t) := by
  obtain ⟨st, li, tmo, lk⟩ := m0
  simp only at h0 hl ht
  subst h0
  subst hl
  have hns : ¬(tmo < 0) := not_lt.mpr ht
  have e1 : smUpdate ⟨MState.IDLE, li, tmo, false⟩ sigStart t1 =
      ⟨MState.RUN, t1, tmo, false⟩ := by
    simp [smUpdate, sigStart, sigNone, hns]
  have e2 : smUpdate ⟨MState.RUN, t1, tmo, false⟩ sigDoorOpen t2 =
      ⟨MState.PAUSE, t2, tmo, false⟩ := by
    simp [smUpdate, sigDoorOpen, sigNone, hns]
  have e3 : smUpdate ⟨MState.PAUSE, t2, tmo, false⟩ sigStart t3 =
      ⟨MState.RUN, t3, tmo, false⟩ := by
    simp [smUpdate, sigStart, sigNone, hns]
  have e4 : smUpdate ⟨MState.RUN, t3, tmo, false⟩ sigCancel t4 =
      ⟨MState.IDLE, t4, tmo, false⟩ := by
    simp [smUpdate, sigCancel, sigNone, hns]
  have e5 : smUpdate ⟨MState.IDLE, t4, tmo, false⟩ sigLock t5 =
      ⟨MState.LOCKED, t4, tmo, true⟩ := by
    simp [smUpdate, sigLock, sigNone, hns]
  rw [e1, e2, e3, e4, e5]
  refine ⟨rfl, rfl, rfl, rfl, rfl, ?_, ?_⟩
  · intro sig t hu
    simp [smUpdate, hu]
  · intro sig t hu
    constructor <;> simp [smUpdate, hu]

/-- C8 witness: the concrete trace on a freshly constructed machine, with
a locked step that ignores a start press and an unlock step that returns
to IDLE at time 7. -/
theorem smUpdate_trace_witness :
    (smUpdate (smInit 0) sigStart 1).state = MState.RUN ∧
    (smUpdate (smUpdate (smInit 0) sigStart 1) sigDoorOpen 2).state = MState.PAUSE ∧
    (smUpdate (smUpdate (smUpdate (smInit 0) sigStart 1) sigDoorOpen 2)
      sigStart 3).state = MState.RUN ∧
    (smUpdate (smUpdate (smUpdate (smUpdate (smInit 0) sigStart 1) sigDoorOpen 2)
      sigStart 3) sigCancel 4).state = MState.IDLE ∧
    (smUpdate (smUpdate (smUpdate (smUpdate (smUpdate (smInit 0) sigStart 1)
      sigDoorOpen 2) sigStart 3) sigCancel 4) sigLock 5).state = MState.LOCKED ∧
    (smUpdate (smUpdate (smUpdate (smUpdate (smUpdate (smUpdate (smInit 0) sigStart 1)
      sigDoorOpen 2) sigStart 3) sigCancel 4) sigLock 5) sigStart 6).state =
      MState.LOCKED ∧
    (smUpdate (smUpdate (smUpdate (smUpdate (smUpdate (smUpdate (smInit 0) sigStart 1)
      sigDoorOpen 2) sigStart 3) sigCancel 4) sigLock 5) sigUnlock 7).state =
      MState.IDLE := by
  have h := smUpdate_trace (smInit 0) rfl rfl (by norm_num [smInit]) 1 2 3 4 5
  exact ⟨h.1, h.2.1, h.2.2.1, h.2.2.2.1, h.2.2.2.2.1,
    h.2.2.2.2.2.1 sigStart 6 rfl, (h.2.2.2.2.2.2 sigUnlock 7 rfl).1⟩

/-! ### Pass/fail analysis (C2) -/

/-- A 100-sample recording measuring 41 % MW power, with expected MW
power 40 and no grill expectation. -/
def sPF41 : DAQState :=
  { initState with
      mwBuf := List.replicate 41 (5 : ℚ) ++ List.replicate 59 (0 : ℚ)
      expected_mw_power := some (Expect.val 40) }

/-- C2 counterexample: with the grill expectation set to the `'variable'`
sentinel the analysis does not skip the grill check and report N/A — it
evaluates `'variable' - tolerance` and raises a `TypeError`. -/
theorem analyzePassFail_variable_counterexample :
    sGVar.expected_grill_power = some Expect.var ∧
    analyzePassFail sGVar 0 = Except.error grillVariableTypeError :=
  ⟨rfl, rfl⟩

set_option maxHeartbeats 2000000 in
/-- C2 (amended): the MW sub-metric is checked only when its expected
power is set and is not the `'variable'` sentinel, but the Grill
sub-metric is checked whenever its expected power is set — a `'variable'`
grill expectation is not excluded and raises a `TypeError` instead of
reporting N/A.  A checked sub-metric is PASS iff
expected − tolerance ≤ measured ≤ expected + tolerance (both ends
inclusive) and FAIL otherwise; an unchecked sub-metric reports N/A; the
overall result is FAIL iff at least one checked sub-metric is FAIL and
PASS otherwise, including when zero sub-metrics were checked. -/
theorem analyzePassFail_spec (s : DAQState) (now : ℚ) :
    (s.expected_grill_power = some Expect.var →
      analyzePassFail s now = Except.error grillVariableTypeError) ∧
    (s.expected_grill_power ≠ some Expect.var →
      ∃ r, analyzePassFail s now = Except.ok r ∧
        ((s.expected_mw_power = none ∨ s.expected_mw_power = some Expect.var) →
          r.mw_result = ResTag.na) ∧
        (∀ e, s.expected_mw_power = some (Expect.val e) →
          r.mw_result = (if e - PASS_FAIL_TOLERANCE ≤ (calculatePowers s).mw ∧
              (calculatePowers s).mw ≤ e + PASS_FAIL_TOLERANCE then ResTag.pass
            else ResTag.fail)) ∧
        (s.expected_grill_power = none → r.grill_result = ResTag.na) ∧
        (∀ e, s.expected_grill_power = some (Expect.val e) →
          r.grill_result = (if e - PASS_FAIL_TOLERANCE ≤ (calculatePowers s).grill ∧
              (calculatePowers s).grill ≤ e + PASS_FAIL_TOLERANCE then ResTag.pass
            else ResTag.fail)) ∧
        (r.overall_result =
          (if r.mw_result = ResTag.fail ∨ r.grill_result = ResTag.fail then ResTag.fail
           else ResTag.pass)) ∧
        r.mw_measured = (calculatePowers s).mw ∧
        r.grill_measured = (calculatePowers s).grill) := by
  constructor
  · intro hvar
    simp only [analyzePassFail, hvar]
  · intro hnvar
    rcases hg : s.expected_grill_power with _ | eg
    · rcases hm : s.expected_mw_power with _ | em
      · simp only [analyzePassFail, hm, hg]
        rw [show (calculatePowers s).mw = (getStatistics s now).mw_avg_power from rfl,
          show (calculatePowers s).grill = (getStatistics s now).grill_avg_power from rfl]
        refine ⟨_, rfl, ?_, ?_, ?_, ?_, ?_, ?_, ?_⟩
        all_goals intros
        all_goals split_ifs <;> simp_all
      · rcases em with _ | e
        · simp only [analyzePassFail, hm, hg]
          rw [show (calculatePowers s).mw = (getStatistics s now).mw_avg_power from rfl,
            show (calculatePowers s).grill = (getStatistics s now).grill_avg_power from rfl]
          refine ⟨_, rfl, ?_, ?_, ?_, ?_, ?_, ?_, ?_⟩
          all_goals intros
          all_goals split_ifs <;> simp_all
        · simp only [analyzePassFail, hm, hg]
          rw [show (calculatePowers s).mw = (getStatistics s now).mw_avg_power from rfl,
            show (calculatePowers s).grill = (getStatistics s now).grill_avg_power from rfl]
          refine ⟨_, rfl, ?_, ?_, ?_, ?_, ?_, ?_, ?_⟩
          all_goals intros
          all_goals split_ifs <;> simp_all
    · rcases eg with _ | e2
      · exact absurd hg hnvar
      · rcases hm : s.expected_mw_power with _ | em
        · simp only [analyzePassFail, hm, hg]
          rw [show (calculatePowers s).mw = (getStatistics s now).mw_avg_power from rfl,
            show (calculatePowers s).grill = (getStatistics s now).grill_avg_power from rfl]
          refine ⟨_, rfl, ?_, ?_, ?_, ?_, ?_, ?_, ?_⟩
          all_goals intros
          all_goals split_ifs <;> simp_all
        · rcases em with _ | e
          · simp only [analyzePassFail, hm, hg]
            rw [show (calculatePowers s).mw = (getStatistics s now).mw_avg_power from rfl,
              show (calculatePowers s).grill = (getStatistics s now).grill_avg_power from rfl]
            refine ⟨_, rfl, ?_, ?_, ?_, ?_, ?_, ?_, ?_⟩
            all_goals intros
            all_goals split_ifs <;> simp_all
          · simp only [analyzePassFail, hm, hg]
            rw [show (calculatePowers s).mw = (getStatistics s now).mw_avg_power from rfl,
              show (calculatePowers s).grill = (getStatistics s now).grill_avg_power from rfl]
            refine ⟨_, rfl, ?_, ?_, ?_, ?_, ?_, ?_, ?_⟩
            all_goals intros
            all_goals split_ifs <;> simp_all

/-- C2 witness: measured 41 % against expected 40 % with 5 % tolerance
passes, the unchecked grill reports N/A, and the overall result is
PASS. -/
theorem analyzePassFail_spec_witness :
    ∃ r, analyzePassFail sPF41 0 = Except.ok r ∧ r.mw_result = ResTag.pass ∧
      r.grill_result = ResTag.na ∧ r.overall_result = ResTag.pass := by
  have hbuf : sPF41.mwBuf = List.replicate 41 (5 : ℚ) ++ List.replicate 59 (0 : ℚ) := rfl
  have hlen : sPF41.mwBuf.length = 100 := by rw [hbuf]; simp
  have hwin : liveWindow sPF41.mwBuf = sPF41.mwBuf := by
    unfold liveWindow
    rw [if_pos (by rw [hlen]; norm_num [POWER_CALC_WINDOW]), hlen]
    norm_num [POWER_CALC_WINDOW]
  have hcount : sPF41.mwBuf.countP (fun v => decide (ON_THRESHOLD ≤ v)) = 41 := by
    rw [hbuf, List.countP_append, List.countP_replicate, List.countP_replicate]
    norm_num [ON_THRESHOLD]
  have h1 : sPF41.mwBuf.length > 0 := by rw [hlen]; norm_num
  have h2 : (liveWindow sPF41.mwBuf).length > 0 := by rw [hwin, hlen]; norm_num
  have hmw : (calculatePowers sPF41).mw = 41 := by
    show (if sPF41.mwBuf.length > 0 then
        if (liveWindow sPF41.mwBuf).length > 0 then
          (((liveWindow sPF41.mwBuf).countP (fun v => decide (ON_THRESHOLD ≤ v)) : ℚ) /
            ((liveWindow sPF41.mwBuf).length : ℚ)) * 100
        else 0
      else 0) = 41
    rw [if_pos h1, if_pos h2, hwin, hcount, hlen]
    norm_num
  obtain ⟨r, hok, hna, hval, hgna, hgval, hov, hmm, hgg⟩ :=
    (analyzePassFail_spec sPF41 0).2
      (by rw [show sPF41.expected_grill_power = none from rfl]; simp)
  have hres : r.mw_result = ResTag.pass := by
    have h := hval 40 rfl
    rw [if_pos] at h
    · exact h
    · rw [hmw]
      norm_num [PASS_FAIL_TOLERANCE]
  have hgres : r.grill_result = ResTag.na := hgna rfl
  refine ⟨r, hok, hres, hgres, ?_⟩
  rw [hov, if_neg]
  rw [hres, hgres]
  simp

end Microwave
